import Mathlib

set_option maxHeartbeats 1000000

/-!
Formal model of the hilo-software/strip-control repository
(src/scripts/strip_control.py and src/scripts/plug_control.py).

Outlet on/off state is a `Bool`.  A strip's children are modelled as a
`List Bool` of their states, addressed by position.  Every call issued to the
kasa device layer is recorded as an `Act` in an observable trace, so that
claims about ordering, discovery and mutating calls can be stated.  Timing in
the blink loop is idealised in the standard way for a shallow embedding:
device commands are instantaneous and `asyncio.sleep(BLINK_DELAY_SECS)`
advances the wall clock by exactly `BLINK_DELAY_SECS` seconds; `time.time()`
is the accumulated `elapsed` counter.  Cooperative cancellation (a process
termination request) can be observed only at the `await asyncio.sleep`
suspension point, exactly as in asyncio; it is modelled by an optional index
`cancelAt`: `some k` means the k-th sleep (0-based) raises CancelledError.
-/

/-- Kind of a discovered kasa device: a multi-outlet strip (is_strip), a plain
SmartPlug, or some other device kind (e.g. a bulb). -/
inductive DevKind where
  | strip
  | plug
  | bulb
  deriving DecidableEq, Repr

/-- A discovered smart device: its alias, its kind, the on/off states of its
child outlets (meaningful for a strip), and its own on/off state (meaningful
for a plain plug). -/
structure SmartDevice where
  devAlias : String
  kind : DevKind
  childStates : List Bool
  selfState : Bool
  deriving DecidableEq, Repr

/-- Observable calls issued to the kasa device layer.  `discover` is the
network discovery scan, `updateDev a` is a device-level `update()` during
discovery, `refresh i` is `update()` on outlet `i`, `cmd i v` is the mutating
command `turn_on()` (v = true) or `turn_off()` (v = false) on outlet `i`, and
`sleepSecs n` is `asyncio.sleep(n)`. -/
inductive Act where
  | discover
  | updateDev (a : String)
  | refresh (i : Nat)
  | cmd (i : Nat) (v : Bool)
  | sleepSecs (n : Nat)
  deriving DecidableEq, Repr

/-- Whether an action mutates outlet state: exactly the turn_on / turn_off
commands. -/
def Act.isMutating : Act → Bool
  | .cmd _ _ => true
  | _ => false

/-- Constant BLINK_DELAY_SECS = 5 from both scripts. -/
def BLINK_DELAY_SECS : Nat := 5

/-- Result of a blink session over a strip: final child states, emitted trace,
number of toggle applications performed by the loop, and whether the
RESTORING step (`restore_state`) was executed. -/
structure BlinkRes where
  states : List Bool
  trace : List Act
  toggles : Nat
  restored : Bool
  deriving DecidableEq, Repr

/-- Result of strip_control.main_loop: the returned success flag, the final
child states of the resolved strip (none if discovery found no match), the
emitted trace and the number of toggle applications performed. -/
structure LoopRes where
  success : Bool
  states : Option (List Bool)
  trace : List Act
  toggles : Nat
  deriving DecidableEq, Repr

namespace StripControl

/-- Models the loop body shared by strip_control.turn_on and turn_off
(lines 57-65): for each child of the strip in order, issue the on/off command
`v` then `update()`.  `i` is the index of the first child in `s`. -/
def applyAll (v : Bool) : Nat → List Bool → List Bool × List Act
  | _, [] => ([], [])
  | i, _ :: rest =>
    let (r, t) := applyAll v (i + 1) rest
    (v :: r, Act.cmd i v :: Act.refresh i :: t)

/-- Models strip_control.turn_on (lines 57-60). -/
def turn_on (s : List Bool) : List Bool × List Act := applyAll true 0 s

/-- Models strip_control.turn_off (lines 62-65). -/
def turn_off (s : List Bool) : List Bool × List Act := applyAll false 0 s

/-- Models strip_control.gather_state (lines 67-72): for each child in order,
`update()` then record `(plug, plug.is_on)`.  Returns the captured states (the
StateSnapshot, one entry per child in order) and the trace. -/
def gather_state : Nat → List Bool → List Bool × List Act
  | _, [] => ([], [])
  | i, b :: rest =>
    let (g, t) := gather_state (i + 1) rest
    (b :: g, Act.refresh i :: t)

/-- Models strip_control.restore_state (lines 74-80): for each
(plug, captured state) pair of the snapshot in order, issue turn_on or
turn_off according to the captured state, then `update()`.  `sv` is the
snapshot, `cur` the current child states; result is the child states after
restoration plus the trace. -/
def restore_state : Nat → List Bool → List Bool → List Bool × List Act
  | _, [], cur => (cur, [])
  | _, _ :: _, [] => ([], [])
  | i, sv :: svs, _ :: cs =>
    let (r, t) := restore_state (i + 1) svs cs
    (sv :: r, Act.cmd i sv :: Act.refresh i :: t)

/-- Models the while loop of strip_control.blink (lines 87-93):
while elapsed wall-clock time is below `duration`, apply the current toggle
value to every child, flip the toggle, and sleep BLINK_DELAY_SECS.
`sleeps` counts completed sleeps so far; if `cancelAt = some sleeps`, the
`await asyncio.sleep` raises CancelledError: since the source wraps the loop
in no try/finally, the whole of blink aborts there (restored = false). -/
def blinkLoop (cancelAt : Option Nat) (sleeps : Nat) (s : List Bool)
    (toggle : Bool) (elapsed duration : Nat) : BlinkRes :=
  if h : elapsed < duration then
    let (s1, t1) := applyAll toggle 0 s
    if cancelAt = some sleeps then
      { states := s1, trace := t1, toggles := 1, restored := false }
    else
      let r := blinkLoop cancelAt (sleeps + 1) s1 (!toggle)
        (elapsed + BLINK_DELAY_SECS) duration
      { states := r.states
        trace := t1 ++ Act.sleepSecs BLINK_DELAY_SECS :: r.trace
        toggles := r.toggles + 1
        restored := r.restored }
  else
    { states := s, trace := [], toggles := 0, restored := true }
termination_by duration - elapsed
decreasing_by simp only [BLINK_DELAY_SECS]; omega

/-- Models strip_control.blink (lines 82-94): capture the snapshot
(gather_state), run the toggle loop for duration_minutes * 60 seconds starting
with toggle = True, then restore the snapshot (restore_state).  If the loop
was cancelled, the CancelledError propagates and restore_state never runs. -/
def blink (cancelAt : Option Nat) (s : List Bool) (duration_minutes : Nat) :
    BlinkRes :=
  let (save_state, t0) := gather_state 0 s
  let r := blinkLoop cancelAt 0 s true 0 (duration_minutes * 60)
  if r.restored then
    let (s2, t2) := restore_state 0 save_state r.states
    { states := s2, trace := t0 ++ r.trace ++ t2, toggles := r.toggles
      restored := true }
  else
    { states := r.states, trace := t0 ++ r.trace, toggles := r.toggles
      restored := false }

/-- Models the scan loop of strip_control.init (lines 47-55): for every
discovered device, `update()` (line 48); if it is a strip, `update()` again
(line 50) and return it as soon as its alias equals the target. -/
def initScan (target_strip : String) : List SmartDevice →
    Option SmartDevice × List Act
  | [] => (none, [])
  | d :: rest =>
    if d.kind = DevKind.strip then
      if d.devAlias = target_strip then
        (some d, [Act.updateDev d.devAlias, Act.updateDev d.devAlias])
      else
        let (r, t) := initScan target_strip rest
        (r, Act.updateDev d.devAlias :: Act.updateDev d.devAlias :: t)
    else
      let (r, t) := initScan target_strip rest
      (r, Act.updateDev d.devAlias :: t)

/-- Models strip_control.init (lines 38-55): `Discover.discover()` then the
scan loop; returns the matching strip or None after the full scan. -/
def init (target_strip : String) (found : List SmartDevice) :
    Option SmartDevice × List Act :=
  let (r, t) := initScan target_strip found
  (r, Act.discover :: t)

/-- Models strip_control.main_loop (lines 97-113) in a failure-free
environment: discover the target; if absent return False; if blink_minutes is
not None run blink and return True; otherwise apply the terminal switch state
directly. -/
def main_loop (target_strip : String) (switch_on : Bool)
    (blink_minutes : Option Nat) (found : List SmartDevice) : LoopRes :=
  let (strip_found, t0) := init target_strip found
  match strip_found with
  | none => { success := false, states := none, trace := t0, toggles := 0 }
  | some d =>
    match blink_minutes with
    | some m =>
      let r := blink none d.childStates m
      { success := true, states := some r.states, trace := t0 ++ r.trace
        toggles := r.toggles }
    | none =>
      let (s1, t1) :=
        if switch_on then turn_on d.childStates else turn_off d.childStates
      { success := true, states := some s1, trace := t0 ++ t1, toggles := 0 }

/-- Models int() applied to the boolean argparse value of --blink_mode
(strip_control.py line 178): int(True) = 1, int(False) = 0. -/
def int_of_bool (b : Bool) : Nat := if b then 1 else 0

/-- Models strip_control.main (lines 169-183): args.switch is lowered and
compared against "on"; --blink_mode is a store_true flag, so
args.blink_mode is a bool, `args.blink_mode != None` is always true, and
blink_minutes is always int(args.blink_mode). -/
def main (strip_name switch : String) (blink_mode : Bool)
    (found : List SmartDevice) : LoopRes :=
  let switch_on : Bool := switch.toLower == "on"
  let blink_minutes : Option Nat := some (int_of_bool blink_mode)
  main_loop strip_name switch_on blink_minutes found

end StripControl

/-- Result of a blink session over a single plug (plug_control.py): final plug
state, emitted trace, number of toggle applications, and whether restore_state
executed. -/
structure PBlinkRes where
  state : Bool
  trace : List Act
  toggles : Nat
  restored : Bool
  deriving DecidableEq, Repr

/-- Result of plug_control.main_loop: the returned success flag, the final
state of the resolved plug (none if not found), the emitted trace and the
number of toggle applications. -/
structure PLoopRes where
  success : Bool
  state : Option Bool
  trace : List Act
  toggles : Nat
  deriving DecidableEq, Repr

namespace PlugControl

/-- Models plug_control.turn_on (lines 52-54): command then update on the
single plug, addressed as outlet 0. -/
def turn_on (_p : Bool) : Bool × List Act :=
  (true, [Act.cmd 0 true, Act.refresh 0])

/-- Models plug_control.turn_off (lines 56-58). -/
def turn_off (_p : Bool) : Bool × List Act :=
  (false, [Act.cmd 0 false, Act.refresh 0])

/-- Models plug_control.gather_state (lines 60-62): update then capture
(plug, plug.is_on). -/
def gather_state (p : Bool) : Bool × List Act :=
  (p, [Act.refresh 0])

/-- Models plug_control.restore_state (lines 64-69): turn the plug on or off
according to the captured state, then update. -/
def restore_state (saved : Bool) : Bool × List Act :=
  (saved, [Act.cmd 0 saved, Act.refresh 0])

/-- Models the while loop of plug_control.blink (lines 76-82).  The
duration is an `Int` because --blink_mode is parsed with type=int and may be
negative; a non-positive duration means the loop body never runs.
Cancellation semantics are as in `StripControl.blinkLoop`. -/
def blinkLoop (cancelAt : Option Nat) (sleeps : Nat) (p : Bool)
    (toggle : Bool) (elapsed duration : Int) : PBlinkRes :=
  if h : elapsed < duration then
    let (p1, t1) := if toggle then turn_on p else turn_off p
    if cancelAt = some sleeps then
      { state := p1, trace := t1, toggles := 1, restored := false }
    else
      let r := blinkLoop cancelAt (sleeps + 1) p1 (!toggle)
        (elapsed + (BLINK_DELAY_SECS : Int)) duration
      { state := r.state
        trace := t1 ++ Act.sleepSecs BLINK_DELAY_SECS :: r.trace
        toggles := r.toggles + 1
        restored := r.restored }
  else
    { state := p, trace := [], toggles := 0, restored := true }
termination_by (duration - elapsed).toNat
decreasing_by simp only [BLINK_DELAY_SECS]; omega

/-- Models plug_control.blink (lines 71-83): capture the snapshot, run the
toggle loop for duration_minutes * 60 seconds starting with toggle = True,
then restore the snapshot; a cancellation in the loop propagates and skips
restore_state. -/
def blink (cancelAt : Option Nat) (p : Bool) (duration_minutes : Int) :
    PBlinkRes :=
  let (save_state, t0) := gather_state p
  let r := blinkLoop cancelAt 0 p true 0 (duration_minutes * 60)
  if r.restored then
    let (p2, t2) := restore_state save_state
    { state := p2, trace := t0 ++ r.trace ++ t2, toggles := r.toggles
      restored := true }
  else
    { state := r.state, trace := t0 ++ r.trace, toggles := r.toggles
      restored := false }

/-- Models the scan loop of plug_control.init (lines 43-50): for every
discovered device, `update()`; return the first device that is a SmartPlug
instance with the target alias. -/
def initScan (target_alias : String) : List SmartDevice →
    Option SmartDevice × List Act
  | [] => (none, [])
  | d :: rest =>
    if d.kind = DevKind.plug ∧ d.devAlias = target_alias then
      (some d, [Act.updateDev d.devAlias])
    else
      let (r, t) := initScan target_alias rest
      (r, Act.updateDev d.devAlias :: t)

/-- Models plug_control.init (lines 35-50): `Discover.discover()` then the
scan loop; returns the matching plug or None after the full scan. -/
def init (target_alias : String) (found : List SmartDevice) :
    Option SmartDevice × List Act :=
  let (r, t) := initScan target_alias found
  (r, Act.discover :: t)

/-- Models plug_control.main_loop (lines 85-100) in a failure-free
environment: discover the target plug; if absent return False; if
blink_minutes is not None run blink; elif switch_on turn on; else turn off. -/
def main_loop (target_alias : String) (switch_on : Bool)
    (blink_minutes : Option Int) (found : List SmartDevice) : PLoopRes :=
  let (plug_found, t0) := init target_alias found
  match plug_found with
  | none => { success := false, state := none, trace := t0, toggles := 0 }
  | some d =>
    match blink_minutes with
    | some m =>
      let r := blink none d.selfState m
      { success := true, state := some r.state, trace := t0 ++ r.trace
        toggles := r.toggles }
    | none =>
      let (p1, t1) :=
        if switch_on then turn_on d.selfState else turn_off d.selfState
      { success := true, state := some p1, trace := t0 ++ t1, toggles := 0 }

end PlugControl

/-- Python exceptions relevant to the model: the NameError raised when
strip_control.main_loop's `except e:` clause evaluates the unbound name `e`. -/
inductive PyErr where
  | nameError
  deriving DecidableEq, Repr

namespace FailStrip

/-- Models strip_control.turn_off (lines 62-65) in an environment where the
turn_off command to child `i` raises a communication failure iff `fails i`:
children are switched strictly sequentially, and a raising command stops the
iteration, leaving that child and all later children untouched.  Returns the
final child states and whether the whole loop completed without raising. -/
def turn_off (fails : Nat → Bool) : Nat → List Bool → List Bool × Bool
  | _, [] => ([], true)
  | i, b :: rest =>
    if fails i then
      (b :: rest, false)
    else
      let (r, ok) := turn_off fails (i + 1) rest
      (false :: r, ok)

/-- Models strip_control.turn_on (lines 57-60) under the same failure
environment as `FailStrip.turn_off`. -/
def turn_on (fails : Nat → Bool) : Nat → List Bool → List Bool × Bool
  | _, [] => ([], true)
  | i, b :: rest =>
    if fails i then
      (b :: rest, false)
    else
      let (r, ok) := turn_on fails (i + 1) rest
      (true :: r, ok)

/-- Models strip_control.main_loop (lines 97-113) under command failures on
the direct (non-blink) path.  The source's handler is `except e:` with `e`
unbound, so when the try body raises, evaluating the clause raises NameError,
which escapes main_loop instead of the intended `return False` (compare
plug_control.py line 96, `except Exception as e:`).  The result pairs the
final child states of the resolved strip with either the returned Bool or the
escaping exception. -/
def main_loop (switch_on : Bool) (blink_minutes : Option Nat)
    (fails : Nat → Bool) (found : Option (List Bool)) :
    List Bool × Except PyErr Bool :=
  match found with
  | none => ([], Except.ok false)
  | some cs =>
    match blink_minutes with
    | some m =>
      let r := StripControl.blink none cs m
      (r.states, Except.ok true)
    | none =>
      let (cs', ok) :=
        if switch_on then turn_on fails 0 cs else turn_off fails 0 cs
      if ok then (cs', Except.ok true)
      else (cs', Except.error PyErr.nameError)

end FailStrip

/-- Modelled from the spec: the OutletSet a resolved device exposes.
"Composite devices expose their children as the OutletSet; simple devices
expose a singleton set containing themselves." -/
def resolvedOutletSet (d : SmartDevice) : List Bool :=
  if d.kind = DevKind.strip then d.childStates else [d.selfState]

/-- The outlet collection strip_control's operations iterate: every one of
turn_on, turn_off and gather_state walks `strip.children` (lines 57-72). -/
def stripOperatedOutlets (d : SmartDevice) : List Bool := d.childStates

/-- The outlet collection plug_control's operations act on: every one of
turn_on, turn_off and gather_state addresses the plug itself (lines 52-62),
i.e. a singleton containing the device. -/
def plugOperatedOutlets (d : SmartDevice) : List Bool := [d.selfState]

/-- Modelled from the spec: the RESTORING trace. "RESTORING: for every
(Outlet, capturedState) pair in the StateSnapshot, in original order, set the
outlet to capturedState and refresh." -/
def restoreTraceSpec : Nat → List Bool → List Act
  | _, [] => []
  | i, sv :: svs => Act.cmd i sv :: Act.refresh i :: restoreTraceSpec (i + 1) svs

/-- Applying a command to every child sets every child state to the command
value. -/
lemma applyAll_fst (v : Bool) (i : Nat) (s : List Bool) :
    (StripControl.applyAll v i s).1 = s.map fun _ => v := by
  induction s generalizing i with
  | nil => rfl
  | cons b rest ih => simp [StripControl.applyAll, ih]

/-- gather_state captures exactly the current child states. -/
lemma gather_state_fst (i : Nat) (s : List Bool) :
    (StripControl.gather_state i s).1 = s := by
  induction s generalizing i with
  | nil => rfl
  | cons b rest ih => simp [StripControl.gather_state, ih]

/-- Restoring a snapshot over current states of the same length yields the
snapshot states. -/
lemma restore_state_fst (sv : List Bool) : ∀ (i : Nat) (cur : List Bool),
    sv.length = cur.length → (StripControl.restore_state i sv cur).1 = sv := by
  induction sv with
  | nil =>
    intro i cur hlen
    cases cur with
    | nil => rfl
    | cons c cs => simp at hlen
  | cons x xs ih =>
    intro i cur hlen
    cases cur with
    | nil => simp at hlen
    | cons c cs =>
      simp only [List.length_cons, Nat.add_right_cancel_iff] at hlen
      simp [StripControl.restore_state, ih i.succ cs hlen]

/-- The trace of restore_state over current states of the same length is
exactly the RESTORING trace described by the spec. -/
lemma restore_state_snd (sv : List Bool) : ∀ (i : Nat) (cur : List Bool),
    sv.length = cur.length →
    (StripControl.restore_state i sv cur).2 = restoreTraceSpec i sv := by
  induction sv with
  | nil => intro i cur _; cases cur <;> rfl
  | cons x xs ih =>
    intro i cur hlen
    cases cur with
    | nil => simp at hlen
    | cons c cs =>
      simp only [List.length_cons, Nat.add_right_cancel_iff] at hlen
      simp [StripControl.restore_state, restoreTraceSpec, ih i.succ cs hlen]

/-- Behaviour of the toggle loop when no cancellation is delivered: it always
reaches the code after the loop (restored = true), performs
ceil((duration - elapsed) / 5) toggle applications, and preserves the number
of children. -/
lemma blinkLoop_none_spec (d : Nat) : ∀ (n e j : Nat) (s : List Bool)
    (tog : Bool), d - e ≤ n →
    (StripControl.blinkLoop none j s tog e d).restored = true ∧
    (StripControl.blinkLoop none j s tog e d).toggles = (d - e + 4) / 5 ∧
    (StripControl.blinkLoop none j s tog e d).states.length = s.length := by
  intro n
  induction n with
  | zero =>
    intro e j s tog hle
    rw [StripControl.blinkLoop]
    have hnlt : ¬ e < d := by omega
    simp [hnlt]
    omega
  | succ n ih =>
    intro e j s tog hle
    rw [StripControl.blinkLoop]
    by_cases hlt : e < d
    · rcases happ : StripControl.applyAll tog 0 s with ⟨s1, t1⟩
      have hmap : s1 = s.map fun _ => tog := by
        have h2 := applyAll_fst tog 0 s
        rw [happ] at h2
        exact h2
      have hs1 : s1.length = s.length := by simp [hmap]
      have hrec := ih (e + BLINK_DELAY_SECS) (j + 1) s1 (!tog)
        (by simp only [BLINK_DELAY_SECS]; omega)
      simp only [BLINK_DELAY_SECS] at hrec ⊢
      simp [hlt, happ, hrec, hs1]
      omega
    · simp [hlt]
      omega

/-- Behaviour of a complete, uncancelled blink session: RESTORING runs, the
final states equal the initial states, the number of toggle applications is
duration_seconds / 5, and the trace ends with the spec's RESTORING trace. -/
lemma blink_none_spec (s : List Bool) (m : Nat) :
    (StripControl.blink none s m).restored = true ∧
    (StripControl.blink none s m).states = s ∧
    (StripControl.blink none s m).toggles = m * 60 / BLINK_DELAY_SECS ∧
    ∃ pre, (StripControl.blink none s m).trace
      = pre ++ restoreTraceSpec 0 s := by
  have hloop := blinkLoop_none_spec (m * 60) (m * 60) 0 0 s true (by omega)
  rcases hloop with ⟨hres, htog, hlen⟩
  rcases hg : StripControl.gather_state 0 s with ⟨sv, t0⟩
  have hsv : sv = s := by
    have := gather_state_fst 0 s
    rw [hg] at this
    simpa using this
  subst hsv
  have hlenr : sv.length =
      (StripControl.blinkLoop none 0 sv true 0 (m * 60)).states.length := by
    omega
  rcases hr : StripControl.restore_state 0 sv
      (StripControl.blinkLoop none 0 sv true 0 (m * 60)).states with ⟨s2, t2⟩
  have hs2 : s2 = sv := by
    have := restore_state_fst sv 0
      (StripControl.blinkLoop none 0 sv true 0 (m * 60)).states hlenr
    rw [hr] at this
    simpa using this
  have ht2 : t2 = restoreTraceSpec 0 sv := by
    have := restore_state_snd sv 0
      (StripControl.blinkLoop none 0 sv true 0 (m * 60)).states hlenr
    rw [hr] at this
    simpa using this
  subst hs2
  subst ht2
  simp only [StripControl.blink, hg, hres, if_true, hr]
  refine ⟨by simp, by simp, by simp only [htog, BLINK_DELAY_SECS]; omega, ?_⟩
  exact ⟨t0 ++ (StripControl.blinkLoop none 0 s2 true 0 (m * 60)).trace,
    by simp⟩

/-- Behaviour of the toggle loop when a cancellation is delivered at the
(j + n)-th sleep, counting from loop entry with sleeps = j: the loop performs
n + 1 toggle applications, aborts without reaching the code after the loop
(restored = false), and leaves every child equal to the last applied toggle
value. -/
lemma blinkLoop_cancel (d : Nat) : ∀ (n j e : Nat) (s : List Bool)
    (tog : Bool), e + n * BLINK_DELAY_SECS < d →
    (StripControl.blinkLoop (some (j + n)) j s tog e d).restored = false ∧
    (StripControl.blinkLoop (some (j + n)) j s tog e d).states
      = s.map (fun _ => tog ^^ decide (n % 2 = 1)) := by
  intro n
  induction n with
  | zero =>
    intro j e s tog hlt
    rw [StripControl.blinkLoop]
    have he : e < d := by
      simp only [BLINK_DELAY_SECS] at hlt
      omega
    rcases happ : StripControl.applyAll tog 0 s with ⟨s1, t1⟩
    have hmap : s1 = s.map fun _ => tog := by
      have h2 := applyAll_fst tog 0 s
      rw [happ] at h2
      exact h2
    simp [he, happ, hmap]
  | succ n ih =>
    intro j e s tog hlt
    rw [StripControl.blinkLoop]
    have he : e < d := by
      simp only [BLINK_DELAY_SECS] at hlt
      omega
    rcases happ : StripControl.applyAll tog 0 s with ⟨s1, t1⟩
    have hmap : s1 = s.map fun _ => tog := by
      have h2 := applyAll_fst tog 0 s
      rw [happ] at h2
      exact h2
    subst hmap
    have hne : ¬ (some (j + (n + 1)) = some j) := by
      simp only [Option.some.injEq]
      omega
    have hrec := ih (j + 1) (e + BLINK_DELAY_SECS) (s.map fun _ => tog) (!tog)
      (by simp only [BLINK_DELAY_SECS] at hlt ⊢; omega)
    have hidx : j + 1 + n = j + (n + 1) := by omega
    rw [hidx] at hrec
    rcases hrec with ⟨hrres, hrst⟩
    have hb : ((!tog) ^^ decide (n % 2 = 1))
        = (tog ^^ decide ((n + 1) % 2 = 1)) := by
      by_cases hpar : n % 2 = 1
      · have h2 : ¬ ((n + 1) % 2 = 1) := by omega
        simp [hpar, h2]
      · have h2 : (n + 1) % 2 = 1 := by omega
        simp [hpar, h2]
    simp only [he, dif_pos, happ, hne, if_false]
    refine ⟨hrres, ?_⟩
    simp only [hrst, List.map_map, Function.comp_def, hb]

/-- Behaviour of the plug toggle loop when no cancellation is delivered: it
always reaches the code after the loop. -/
lemma pblinkLoop_none_restored (d : Int) : ∀ (n : Nat) (e : Int) (j : Nat)
    (p tog : Bool), (d - e).toNat ≤ n →
    (PlugControl.blinkLoop none j p tog e d).restored = true := by
  intro n
  induction n with
  | zero =>
    intro e j p tog hle
    rw [PlugControl.blinkLoop]
    have hnlt : ¬ e < d := by omega
    simp [hnlt]
  | succ n ih =>
    intro e j p tog hle
    rw [PlugControl.blinkLoop]
    by_cases hlt : e < d
    · rcases hsw : (if tog then PlugControl.turn_on p
        else PlugControl.turn_off p) with ⟨p1, t1⟩
      have hrec := ih (e + (BLINK_DELAY_SECS : Int)) (j + 1) p1 (!tog)
        (by simp only [BLINK_DELAY_SECS]; omega)
      simp [hlt, hsw, hrec]
    · simp [hlt]

/-- Behaviour of a complete, uncancelled plug blink session: RESTORING runs
and the final plug state equals the captured one, for any integer duration
including non-positive ones. -/
lemma pblink_none_spec (p : Bool) (m : Int) :
    (PlugControl.blink none p m).restored = true ∧
    (PlugControl.blink none p m).state = p := by
  have hres := pblinkLoop_none_restored (m * 60) (m * 60 - 0).toNat 0 0 p true
    (by omega)
  simp only [PlugControl.blink, PlugControl.gather_state,
    PlugControl.restore_state, hres, if_true]
  simp

/-- When no discovered device is a strip with the target alias, the strip
scan returns none. -/
lemma stripInitScan_no_match (target : String) : ∀ (found : List SmartDevice),
    (∀ d ∈ found, ¬ (d.kind = DevKind.strip ∧ d.devAlias = target)) →
    (StripControl.initScan target found).1 = none := by
  intro found
  induction found with
  | nil => intro _; rfl
  | cons d rest ih =>
    intro hno
    have hd := hno d (by simp)
    have hrest := ih fun x hx => hno x (by simp [hx])
    rcases hscan : StripControl.initScan target rest with ⟨r, t⟩
    rw [hscan] at hrest
    by_cases hk : d.kind = DevKind.strip
    · have ha : ¬ d.devAlias = target := fun h => hd ⟨hk, h⟩
      simp [StripControl.initScan, hk, ha, hscan, hrest]
    · simp [StripControl.initScan, hk, hscan, hrest]

/-- The strip scan emits only device-level updates. -/
lemma stripInitScan_trace (target : String) : ∀ (found : List SmartDevice),
    ∃ names : List String,
      (StripControl.initScan target found).2 = names.map Act.updateDev := by
  intro found
  induction found with
  | nil => exact ⟨[], rfl⟩
  | cons x rest ih =>
    rcases hscan : StripControl.initScan target rest with ⟨r, t⟩
    rcases ih with ⟨names, hnames⟩
    rw [hscan] at hnames
    by_cases hk : x.kind = DevKind.strip
    · by_cases hal : x.devAlias = target
      · exact ⟨[x.devAlias, x.devAlias],
          by simp [StripControl.initScan, hk, hal]⟩
      · exact ⟨x.devAlias :: x.devAlias :: names,
          by simp [StripControl.initScan, hk, hal, hscan, hnames]⟩
    · exact ⟨x.devAlias :: names,
        by simp [StripControl.initScan, hk, hscan, hnames]⟩

/-- The strip scan performs no mutating call. -/
lemma stripInitScan_no_mutation (target : String) (found : List SmartDevice) :
    ∀ a ∈ (StripControl.initScan target found).2, a.isMutating = false := by
  intro a ha
  rcases stripInitScan_trace target found with ⟨names, hn⟩
  rw [hn] at ha
  rcases List.mem_map.mp ha with ⟨nm, _, rfl⟩
  rfl

/-- When no discovered device is a strip with the target alias, the strip
scan refreshes every discovered device: the full scan completes. -/
lemma stripInitScan_covers (target : String) : ∀ (found : List SmartDevice),
    (∀ d ∈ found, ¬ (d.kind = DevKind.strip ∧ d.devAlias = target)) →
    ∀ d ∈ found, Act.updateDev d.devAlias
      ∈ (StripControl.initScan target found).2 := by
  intro found
  induction found with
  | nil => intro _ d hd; simp at hd
  | cons x rest ih =>
    intro hno d hd
    have hx := hno x (by simp)
    have hrest := ih fun y hy => hno y (by simp [hy])
    rcases hscan : StripControl.initScan target rest with ⟨r, t⟩
    have hrest2 : ∀ y ∈ rest, Act.updateDev y.devAlias ∈ t := by
      intro y hy
      have hmem := hrest y hy
      rw [hscan] at hmem
      exact hmem
    rw [List.mem_cons] at hd
    by_cases hk : x.kind = DevKind.strip
    · have ha : ¬ x.devAlias = target := fun h => hx ⟨hk, h⟩
      rcases hd with rfl | hd
      · simp [StripControl.initScan, hk, ha, hscan]
      · simp [StripControl.initScan, hk, ha, hscan, hrest2 d hd]
    · rcases hd with rfl | hd
      · simp [StripControl.initScan, hk, hscan]
      · simp [StripControl.initScan, hk, hscan, hrest2 d hd]

/-- A device returned by the strip scan is a strip whose alias equals the
target. -/
lemma stripInitScan_some (target : String) : ∀ (found : List SmartDevice)
    (d : SmartDevice), (StripControl.initScan target found).1 = some d →
    d.kind = DevKind.strip ∧ d.devAlias = target := by
  intro found
  induction found with
  | nil => intro d h; simp [StripControl.initScan] at h
  | cons x rest ih =>
    intro d h
    rcases hscan : StripControl.initScan target rest with ⟨r, t⟩
    rw [hscan] at ih
    by_cases hk : x.kind = DevKind.strip
    · by_cases hal : x.devAlias = target
      · simp [StripControl.initScan, hk, hal] at h
        subst h
        exact ⟨hk, hal⟩
      · simp [StripControl.initScan, hk, hal, hscan] at h
        exact ih d h
    · simp [StripControl.initScan, hk, hscan] at h
      exact ih d h

/-- When some discovered device is a strip with the target alias, the strip
scan finds a device. -/
lemma stripInitScan_match (target : String) : ∀ (found : List SmartDevice),
    (∃ d ∈ found, d.kind = DevKind.strip ∧ d.devAlias = target) →
    ∃ d, (StripControl.initScan target found).1 = some d := by
  intro found
  induction found with
  | nil => intro h; simp at h
  | cons x rest ih =>
    intro h
    rcases hscan : StripControl.initScan target rest with ⟨r, t⟩
    rw [hscan] at ih
    by_cases hk : x.kind = DevKind.strip
    · by_cases hal : x.devAlias = target
      · exact ⟨x, by simp [StripControl.initScan, hk, hal]⟩
      · rcases h with ⟨d, hd, hkd, had⟩
        rw [List.mem_cons] at hd
        rcases hd with rfl | hd
        · exact absurd had hal
        · rcases ih ⟨d, hd, hkd, had⟩ with ⟨d2, hd2⟩
          exact ⟨d2, by simp [StripControl.initScan, hk, hal, hscan, hd2]⟩
    · rcases h with ⟨d, hd, hkd, had⟩
      rw [List.mem_cons] at hd
      rcases hd with rfl | hd
      · exact absurd hkd hk
      · rcases ih ⟨d, hd, hkd, had⟩ with ⟨d2, hd2⟩
        exact ⟨d2, by simp [StripControl.initScan, hk, hscan, hd2]⟩

/-- When no discovered device is a plug with the target alias, the plug scan
returns none. -/
lemma plugInitScan_no_match (target : String) : ∀ (found : List SmartDevice),
    (∀ d ∈ found, ¬ (d.kind = DevKind.plug ∧ d.devAlias = target)) →
    (PlugControl.initScan target found).1 = none := by
  intro found
  induction found with
  | nil => intro _; rfl
  | cons d rest ih =>
    intro hno
    have hd := hno d (by simp)
    have hrest := ih fun x hx => hno x (by simp [hx])
    rcases hscan : PlugControl.initScan target rest with ⟨r, t⟩
    rw [hscan] at hrest
    simp [PlugControl.initScan, hd, hscan, hrest]

/-- The plug scan emits only device-level updates. -/
lemma plugInitScan_trace (target : String) : ∀ (found : List SmartDevice),
    ∃ names : List String,
      (PlugControl.initScan target found).2 = names.map Act.updateDev := by
  intro found
  induction found with
  | nil => exact ⟨[], rfl⟩
  | cons x rest ih =>
    rcases hscan : PlugControl.initScan target rest with ⟨r, t⟩
    rcases ih with ⟨names, hnames⟩
    rw [hscan] at hnames
    by_cases hm : x.kind = DevKind.plug ∧ x.devAlias = target
    · exact ⟨[x.devAlias], by simp [PlugControl.initScan, hm]⟩
    · exact ⟨x.devAlias :: names,
        by simp [PlugControl.initScan, hm, hscan, hnames]⟩

/-- The plug scan performs no mutating call. -/
lemma plugInitScan_no_mutation (target : String) (found : List SmartDevice) :
    ∀ a ∈ (PlugControl.initScan target found).2, a.isMutating = false := by
  intro a ha
  rcases plugInitScan_trace target found with ⟨names, hn⟩
  rw [hn] at ha
  rcases List.mem_map.mp ha with ⟨nm, _, rfl⟩
  rfl

/-- When no discovered device is a plug with the target alias, the plug scan
refreshes every discovered device: the full scan completes. -/
lemma plugInitScan_covers (target : String) : ∀ (found : List SmartDevice),
    (∀ d ∈ found, ¬ (d.kind = DevKind.plug ∧ d.devAlias = target)) →
    ∀ d ∈ found, Act.updateDev d.devAlias
      ∈ (PlugControl.initScan target found).2 := by
  intro found
  induction found with
  | nil => intro _ d hd; simp at hd
  | cons x rest ih =>
    intro hno d hd
    have hx := hno x (by simp)
    have hrest := ih fun y hy => hno y (by simp [hy])
    rcases hscan : PlugControl.initScan target rest with ⟨r, t⟩
    have hrest2 : ∀ y ∈ rest, Act.updateDev y.devAlias ∈ t := by
      intro y hy
      have hmem := hrest y hy
      rw [hscan] at hmem
      exact hmem
    rw [List.mem_cons] at hd
    rcases hd with rfl | hd
    · simp [PlugControl.initScan, hx, hscan]
    · simp [PlugControl.initScan, hx, hscan, hrest2 d hd]

/-- A device returned by the plug scan is a plug whose alias equals the
target. -/
lemma plugInitScan_some (target : String) : ∀ (found : List SmartDevice)
    (d : SmartDevice), (PlugControl.initScan target found).1 = some d →
    d.kind = DevKind.plug ∧ d.devAlias = target := by
  intro found
  induction found with
  | nil => intro d h; simp [PlugControl.initScan] at h
  | cons x rest ih =>
    intro d h
    rcases hscan : PlugControl.initScan target rest with ⟨r, t⟩
    rw [hscan] at ih
    by_cases hm : x.kind = DevKind.plug ∧ x.devAlias = target
    · simp [PlugControl.initScan, hm] at h
      subst h
      exact hm
    · simp [PlugControl.initScan, hm, hscan] at h
      exact ih d h

/-- When some discovered device is a plug with the target alias, the plug
scan finds a device. -/
lemma plugInitScan_match (target : String) : ∀ (found : List SmartDevice),
    (∃ d ∈ found, d.kind = DevKind.plug ∧ d.devAlias = target) →
    ∃ d, (PlugControl.initScan target found).1 = some d := by
  intro found
  induction found with
  | nil => intro h; simp at h
  | cons x rest ih =>
    intro h
    rcases hscan : PlugControl.initScan target rest with ⟨r, t⟩
    rw [hscan] at ih
    by_cases hm : x.kind = DevKind.plug ∧ x.devAlias = target
    · exact ⟨x, by simp [PlugControl.initScan, hm]⟩
    · rcases h with ⟨d, hd, hkd, had⟩
      rw [List.mem_cons] at hd
      rcases hd with rfl | hd
      · exact absurd ⟨hkd, had⟩ hm
      · rcases ih ⟨d, hd, hkd, had⟩ with ⟨d2, hd2⟩
        exact ⟨d2, by simp [PlugControl.initScan, hm, hscan, hd2]⟩

/-- C2: For every blink session with requested duration
D = duration_minutes * 60 seconds and fixed inter-toggle delay
BLINK_DELAY_SECS = 5 seconds, the number of toggle applications performed by
the toggle loop equals floor(D / BLINK_DELAY_SECS): the final partial interval
is simply not started once the wall-clock deadline is reached.  (Every
session's duration in the code is a whole number of minutes, so the delay
divides D and ceiling and floor agree.) -/
theorem c2_toggle_count (s : List Bool) (duration_minutes : Nat) :
    (StripControl.blink none s duration_minutes).toggles
      = duration_minutes * 60 / BLINK_DELAY_SECS :=
  (blink_none_spec s duration_minutes).2.2.1

/-- C3: For every blink session that runs to completion without failure, the
RESTORING step executes and afterwards every outlet's observed state equals
its pre-blink captured state, regardless of parity of the toggle count;
restoration sets each (Outlet, capturedState) pair in original snapshot order
with a refresh after each set (the trace ends with the spec's RESTORING
trace).  Both the strip and the single-plug variants satisfy this. -/
theorem c3_restore_after_blink (s : List Bool) (duration_minutes : Nat)
    (p : Bool) (m : Int) :
    (StripControl.blink none s duration_minutes).restored = true ∧
    (StripControl.blink none s duration_minutes).states = s ∧
    (∃ pre, (StripControl.blink none s duration_minutes).trace
      = pre ++ restoreTraceSpec 0 s) ∧
    (PlugControl.blink none p m).restored = true ∧
    (PlugControl.blink none p m).state = p := by
  rcases blink_none_spec s duration_minutes with ⟨h1, h2, _, h4⟩
  rcases pblink_none_spec p m with ⟨h5, h6⟩
  exact ⟨h1, h2, h4, h5, h6⟩

/-- C6: For every OutletSet, capturing a StateSnapshot (gather_state) and
immediately restoring it (restore_state) with no intervening toggle leaves
every outlet's state unchanged, in both the strip and the single-plug
variants (round-trip law). -/
theorem c6_round_trip (s : List Bool) (p : Bool) :
    (StripControl.restore_state 0 (StripControl.gather_state 0 s).1 s).1 = s ∧
    (PlugControl.restore_state (PlugControl.gather_state p).1).1 = p := by
  constructor
  · rw [gather_state_fst 0 s]
    exact restore_state_fst s 0 s rfl
  · rfl

/-- C1 counterexample: a cancellation delivered at the first sleep of a
1-minute blink session over a single initially-off outlet aborts blink before
restore_state: the RESTORING step is not executed (restored = false) and the
outlet is left on, not equal to its captured snapshot state (off).  The
source installs no signal or atexit handler and wraps the toggle loop in no
try/finally, so the CancelledError raised at the suspension point propagates
and the process exits without restoring. -/
theorem c1_counterexample :
    (StripControl.blink (some 0) [false] 1).restored = false ∧
    (StripControl.blink (some 0) [false] 1).states ≠ [false] := by
  have h : StripControl.blink (some 0) [false] 1
      = { states := [true],
          trace := [Act.refresh 0, Act.cmd 0 true, Act.refresh 0],
          toggles := 1, restored := false } := by
    simp [StripControl.blink, StripControl.blinkLoop,
      StripControl.gather_state, StripControl.applyAll, BLINK_DELAY_SECS]
  rw [h]
  simp

/-- C1 amended: if a cancellation is delivered at the k-th sleep, within the
session's duration, the blink session aborts without executing the RESTORING
step, and every outlet is left in its mid-blink state: the last applied
toggle value (on if k is even, off if k is odd), not its captured snapshot
state. -/
theorem c1_cancellation_skips_restore (s : List Bool) (m k : Nat)
    (h : k * BLINK_DELAY_SECS < m * 60) :
    (StripControl.blink (some k) s m).restored = false ∧
    (StripControl.blink (some k) s m).states
      = s.map (fun _ => decide (k % 2 = 0)) := by
  have hl := blinkLoop_cancel (m * 60) k 0 0 s true
    (by simp only [Nat.zero_add]; exact h)
  simp only [Nat.zero_add] at hl
  rcases hl with ⟨hres, hst⟩
  have hparity : (true ^^ decide (k % 2 = 1)) = decide (k % 2 = 0) := by
    by_cases hp : k % 2 = 1
    · have h0 : ¬ (k % 2 = 0) := by omega
      simp [hp, h0]
    · have h0 : k % 2 = 0 := by omega
      simp [hp, h0]
  rcases hg : StripControl.gather_state 0 s with ⟨sv, t0⟩
  simp only [StripControl.blink, hg, hres, Bool.false_eq_true, if_false]
  exact ⟨by trivial, by rw [hst]; simp only [hparity]⟩

/-- C1 witness: the amended cancellation behaviour at the concrete input of
the counterexample. -/
theorem c1_cancellation_skips_restore_witness :
    0 * BLINK_DELAY_SECS < 1 * 60 ∧
    ((StripControl.blink (some 0) [false] 1).restored = false ∧
     (StripControl.blink (some 0) [false] 1).states
       = [false].map (fun _ => decide (0 % 2 = 0))) :=
  ⟨by decide, c1_cancellation_skips_restore [false] 1 0 (by decide)⟩

/-- C4: evaluation of strip_control.main_loop at the spec's failing scenario:
a strip with children in states [on, off, on], a direct turn-off request, and
a communication failure on child 1's command.  Children are switched
sequentially: child 0 is switched off, children 1 and 2 are left untouched
(no rollback), and the operation fails — but main_loop does not return False:
the broken handler `except e:` (line 110, `e` unbound) raises NameError,
which escapes main_loop, contradicting the claim that main_loop returns
False. -/
theorem c4_partial_failure_eval :
    FailStrip.main_loop false none (fun i => i == 1) (some [true, false, true])
      = ([false, false, true], Except.error PyErr.nameError) := rfl

/-- C5 counterexample: a strip_control invocation without the blink flag has
blink duration int(False) = 0 minutes, which is non-positive, yet the request
is not rejected: the discovery scan runs (Act.discover is in the trace),
mutating calls are performed (the restore step of the degenerate blink
session), and the invocation reports success. -/
theorem c5_counterexample :
    StripControl.int_of_bool false = 0 ∧
    (StripControl.main "s" "on" false
      [⟨"s", DevKind.strip, [true], false⟩]).success = true ∧
    Act.discover ∈ (StripControl.main "s" "on" false
      [⟨"s", DevKind.strip, [true], false⟩]).trace ∧
    ∃ a ∈ (StripControl.main "s" "on" false
      [⟨"s", DevKind.strip, [true], false⟩]).trace, a.isMutating = true := by
  have h : StripControl.main "s" "on" false
      [⟨"s", DevKind.strip, [true], false⟩]
      = { success := true, states := some [true],
          trace := [Act.discover, Act.updateDev "s", Act.updateDev "s",
            Act.refresh 0, Act.cmd 0 true, Act.refresh 0],
          toggles := 0 } := by
    simp [StripControl.main, StripControl.main_loop, StripControl.init,
      StripControl.initScan, StripControl.int_of_bool, StripControl.blink,
      StripControl.blinkLoop, StripControl.gather_state,
      StripControl.restore_state, BLINK_DELAY_SECS]
  rw [h]
  refine ⟨rfl, rfl, by simp, ⟨Act.cmd 0 true, by simp, rfl⟩⟩

/-- C5 amended: no InvalidRequest validation exists in either script: every
invocation attempts the discovery scan first, before any inspection of the
blink duration or the terminal state — a request with a non-positive blink
duration or an unparseable terminal state is processed like any other rather
than rejected before discovery. -/
theorem c5_no_validation :
    (∀ (strip_name switch : String) (blink_mode : Bool)
      (found : List SmartDevice), ∃ t,
        (StripControl.main strip_name switch blink_mode found).trace
          = Act.discover :: t) ∧
    (∀ (target : String) (switch_on : Bool) (blink_minutes : Option Int)
      (found : List SmartDevice), ∃ t,
        (PlugControl.main_loop target switch_on blink_minutes found).trace
          = Act.discover :: t) := by
  constructor
  · intro n sw b found
    rcases hscan : StripControl.initScan n found with ⟨r, t0⟩
    cases r with
    | none =>
      exact ⟨t0, by simp [StripControl.main, StripControl.main_loop,
        StripControl.init, hscan]⟩
    | some d =>
      exact ⟨t0 ++ (StripControl.blink none d.childStates
          (StripControl.int_of_bool b)).trace,
        by simp [StripControl.main, StripControl.main_loop,
          StripControl.init, hscan]⟩
  · intro n sw bm found
    rcases hscan : PlugControl.initScan n found with ⟨r, t0⟩
    cases r with
    | none =>
      exact ⟨t0, by simp [PlugControl.main_loop, PlugControl.init, hscan]⟩
    | some d =>
      cases bm with
      | some m =>
        exact ⟨t0 ++ (PlugControl.blink none d.selfState m).trace,
          by simp [PlugControl.main_loop, PlugControl.init, hscan]⟩
      | none =>
        cases sw with
        | true =>
          exact ⟨t0 ++ (PlugControl.turn_on d.selfState).2,
            by simp [PlugControl.main_loop, PlugControl.init, hscan]⟩
        | false =>
          exact ⟨t0 ++ (PlugControl.turn_off d.selfState).2,
            by simp [PlugControl.main_loop, PlugControl.init, hscan]⟩

/-- C7: For every target alias that matches no discovered device, resolution
returns NotFound (None) only after the full discovery scan completes (every
discovered device is refreshed), and zero mutating calls are performed during
resolution, in both scripts. -/
theorem c7_not_found (target : String) (found : List SmartDevice) :
    ((∀ d ∈ found, ¬ (d.kind = DevKind.strip ∧ d.devAlias = target)) →
      (StripControl.init target found).1 = none ∧
      (∀ a ∈ (StripControl.init target found).2, a.isMutating = false) ∧
      (∀ d ∈ found, Act.updateDev d.devAlias
        ∈ (StripControl.init target found).2)) ∧
    ((∀ d ∈ found, ¬ (d.kind = DevKind.plug ∧ d.devAlias = target)) →
      (PlugControl.init target found).1 = none ∧
      (∀ a ∈ (PlugControl.init target found).2, a.isMutating = false) ∧
      (∀ d ∈ found, Act.updateDev d.devAlias
        ∈ (PlugControl.init target found).2)) := by
  constructor
  · intro hno
    rcases hscan : StripControl.initScan target found with ⟨r, t⟩
    have h1 := stripInitScan_no_match target found hno
    rw [hscan] at h1
    have h3 := stripInitScan_covers target found hno
    refine ⟨by simp [StripControl.init, hscan, h1], ?_, ?_⟩
    · intro a ha
      simp only [StripControl.init, hscan, List.mem_cons] at ha
      rcases ha with rfl | ha
      · rfl
      · exact stripInitScan_no_mutation target found a (by rw [hscan]; exact ha)
    · intro d hd
      have hm := h3 d hd
      rw [hscan] at hm
      simp [StripControl.init, hscan, hm]
  · intro hno
    rcases hscan : PlugControl.initScan target found with ⟨r, t⟩
    have h1 := plugInitScan_no_match target found hno
    rw [hscan] at h1
    have h3 := plugInitScan_covers target found hno
    refine ⟨by simp [PlugControl.init, hscan, h1], ?_, ?_⟩
    · intro a ha
      simp only [PlugControl.init, hscan, List.mem_cons] at ha
      rcases ha with rfl | ha
      · rfl
      · exact plugInitScan_no_mutation target found a (by rw [hscan]; exact ha)
    · intro d hd
      have hm := h3 d hd
      rw [hscan] at hm
      simp [PlugControl.init, hscan, hm]

/-- C7 witness: resolving alias "nope" against a discovery result holding one
plug "lamp" and one strip "tv" returns none in both scripts. -/
theorem c7_not_found_witness :
    (StripControl.init "nope" [⟨"lamp", DevKind.plug, [], true⟩,
      ⟨"tv", DevKind.strip, [true, false], false⟩]).1 = none ∧
    (PlugControl.init "nope" [⟨"lamp", DevKind.plug, [], true⟩,
      ⟨"tv", DevKind.strip, [true, false], false⟩]).1 = none :=
  ⟨((c7_not_found "nope" [⟨"lamp", DevKind.plug, [], true⟩,
      ⟨"tv", DevKind.strip, [true, false], false⟩]).1 (by decide)).1,
   ((c7_not_found "nope" [⟨"lamp", DevKind.plug, [], true⟩,
      ⟨"tv", DevKind.strip, [true, false], false⟩]).2 (by decide)).1⟩

/-- C8: For every request that specifies both a terminal on/off state and a
blink duration, the blink session takes exclusive precedence: the result of
main_loop is entirely independent of the requested terminal state, and the
emitted trace is exactly the discovery trace followed by the blink session's
trace — no separate application of the terminal on/off state happens before
or after the blink session, in either script. -/
theorem c8_blink_precedence (target : String) (found : List SmartDevice)
    (m : Nat) (mi : Int) (sw1 sw2 : Bool) :
    StripControl.main_loop target sw1 (some m) found
      = StripControl.main_loop target sw2 (some m) found ∧
    PlugControl.main_loop target sw1 (some mi) found
      = PlugControl.main_loop target sw2 (some mi) found ∧
    (∀ d, (StripControl.init target found).1 = some d →
      (StripControl.main_loop target sw1 (some m) found).trace
        = (StripControl.init target found).2
          ++ (StripControl.blink none d.childStates m).trace) := by
  rcases hscan : StripControl.initScan target found with ⟨r, t⟩
  rcases hpscan : PlugControl.initScan target found with ⟨rp, tp⟩
  refine ⟨?_, ?_, ?_⟩
  · cases r with
    | none => simp [StripControl.main_loop, StripControl.init, hscan]
    | some d => simp [StripControl.main_loop, StripControl.init, hscan]
  · cases rp with
    | none => simp [PlugControl.main_loop, PlugControl.init, hpscan]
    | some d => simp [PlugControl.main_loop, PlugControl.init, hpscan]
  · intro d hd
    simp only [StripControl.init, hscan] at hd ⊢
    cases r with
    | none => simp at hd
    | some d2 =>
      simp only [Option.some.injEq] at hd
      subst hd
      simp [StripControl.main_loop, StripControl.init, hscan]

/-- C8 witness: blink precedence at a concrete strip and plug discovery
result, with the hypothesis that resolution finds the strip discharged at a
concrete device. -/
theorem c8_blink_precedence_witness :
    StripControl.main_loop "tv" true (some 1)
        [⟨"tv", DevKind.strip, [false], false⟩]
      = StripControl.main_loop "tv" false (some 1)
        [⟨"tv", DevKind.strip, [false], false⟩] ∧
    (StripControl.main_loop "tv" true (some 1)
        [⟨"tv", DevKind.strip, [false], false⟩]).trace
      = (StripControl.init "tv" [⟨"tv", DevKind.strip, [false], false⟩]).2
        ++ (StripControl.blink none [false] 1).trace :=
  ⟨(c8_blink_precedence "tv" [⟨"tv", DevKind.strip, [false], false⟩]
      1 0 true false).1,
   (c8_blink_precedence "tv" [⟨"tv", DevKind.strip, [false], false⟩]
      1 0 true false).2.2 ⟨"tv", DevKind.strip, [false], false⟩ (by decide)⟩

/-- C9: Alias resolution normalizes both device shapes behind one
abstraction: strip_control's resolution only ever returns composite devices
(strips), whose operated outlet collection is their children, and
plug_control's resolution only ever returns simple devices (plugs), whose
operated outlet collection is the singleton containing the device itself;
each agrees with the spec's resolvedOutletSet, and a matching device
guarantees a successful resolution. -/
theorem c9_resolution_normalizes (target : String)
    (found : List SmartDevice) :
    (∀ d, (StripControl.init target found).1 = some d →
      d.kind = DevKind.strip ∧ stripOperatedOutlets d = resolvedOutletSet d) ∧
    (∀ d, (PlugControl.init target found).1 = some d →
      d.kind = DevKind.plug ∧ plugOperatedOutlets d = resolvedOutletSet d ∧
      plugOperatedOutlets d = [d.selfState]) ∧
    ((∃ d ∈ found, d.kind = DevKind.strip ∧ d.devAlias = target) →
      ∃ d, (StripControl.init target found).1 = some d) ∧
    ((∃ d ∈ found, d.kind = DevKind.plug ∧ d.devAlias = target) →
      ∃ d, (PlugControl.init target found).1 = some d) := by
  rcases hscan : StripControl.initScan target found with ⟨r, t⟩
  rcases hpscan : PlugControl.initScan target found with ⟨rp, tp⟩
  refine ⟨?_, ?_, ?_, ?_⟩
  · intro d hd
    simp only [StripControl.init, hscan] at hd
    have hsome : (StripControl.initScan target found).1 = some d := by
      rw [hscan]; exact hd
    have hk := (stripInitScan_some target found d hsome).1
    exact ⟨hk, by simp [stripOperatedOutlets, resolvedOutletSet, hk]⟩
  · intro d hd
    simp only [PlugControl.init, hpscan] at hd
    have hsome : (PlugControl.initScan target found).1 = some d := by
      rw [hpscan]; exact hd
    have hk := (plugInitScan_some target found d hsome).1
    have hne : ¬ (d.kind = DevKind.strip) := by rw [hk]; decide
    exact ⟨hk, by simp [plugOperatedOutlets, resolvedOutletSet, hne], rfl⟩
  · intro hex
    rcases stripInitScan_match target found hex with ⟨d, hd⟩
    rw [hscan] at hd
    exact ⟨d, by simp [StripControl.init, hscan, hd]⟩
  · intro hex
    rcases plugInitScan_match target found hex with ⟨d, hd⟩
    rw [hpscan] at hd
    exact ⟨d, by simp [PlugControl.init, hpscan, hd]⟩

/-- C9 witness: resolution of a concrete strip and a concrete plug, with the
hypotheses discharged at concrete devices: the strip resolves to its
children, the plug to the singleton of itself. -/
theorem c9_resolution_normalizes_witness :
    (stripOperatedOutlets ⟨"tv", DevKind.strip, [true, false], false⟩
      = resolvedOutletSet ⟨"tv", DevKind.strip, [true, false], false⟩) ∧
    (plugOperatedOutlets ⟨"lamp", DevKind.plug, [], true⟩
      = resolvedOutletSet ⟨"lamp", DevKind.plug, [], true⟩) ∧
    (∃ d, (StripControl.init "tv"
      [⟨"tv", DevKind.strip, [true, false], false⟩]).1 = some d) :=
  ⟨((c9_resolution_normalizes "tv"
      [⟨"tv", DevKind.strip, [true, false], false⟩]).1
      ⟨"tv", DevKind.strip, [true, false], false⟩ (by decide)).2,
   (((c9_resolution_normalizes "lamp"
      [⟨"lamp", DevKind.plug, [], true⟩]).2.1
      ⟨"lamp", DevKind.plug, [], true⟩ (by decide)).2).1,
   ((c9_resolution_normalizes "tv"
      [⟨"tv", DevKind.strip, [true, false], false⟩]).2.2.1
      ⟨⟨"tv", DevKind.strip, [true, false], false⟩, by decide⟩)⟩

/-- C10: In strip_control the --blink_mode option is a store_true boolean
flag converted with int(), so main always calls main_loop with
blink_minutes = some (int_of_bool b), which is 0 or 1 and never none; an
invocation without the flag therefore still runs a blink session of duration
0 minutes — zero toggle applications, snapshot capture immediately followed
by restore, every child state unchanged — and the requested terminal on/off
state never influences the result. -/
theorem c10_blink_flag_coercion (strip_name sw1 sw2 : String) (b : Bool)
    (found : List SmartDevice) :
    (StripControl.int_of_bool b = 0 ∨ StripControl.int_of_bool b = 1) ∧
    StripControl.main strip_name sw1 b found
      = StripControl.main_loop strip_name (sw1.toLower == "on")
          (some (StripControl.int_of_bool b)) found ∧
    StripControl.main strip_name sw1 b found
      = StripControl.main strip_name sw2 b found ∧
    (StripControl.main strip_name sw1 false found).toggles = 0 ∧
    (∀ d, (StripControl.init strip_name found).1 = some d →
      (StripControl.main strip_name sw1 false found).states
        = some d.childStates) := by
  rcases hscan : StripControl.initScan strip_name found with ⟨r, t⟩
  refine ⟨?_, rfl, ?_, ?_, ?_⟩
  · cases b <;> simp [StripControl.int_of_bool]
  · cases r with
    | none =>
      simp [StripControl.main, StripControl.main_loop, StripControl.init,
        hscan]
    | some d =>
      simp [StripControl.main, StripControl.main_loop, StripControl.init,
        hscan]
  · cases r with
    | none =>
      simp [StripControl.main, StripControl.main_loop, StripControl.init,
        hscan]
    | some d =>
      have ht := (blink_none_spec d.childStates 0).2.2.1
      simp [StripControl.main, StripControl.main_loop, StripControl.init,
        hscan, ht, StripControl.int_of_bool, BLINK_DELAY_SECS]
  · intro d hd
    simp only [StripControl.init, hscan] at hd
    cases r with
    | none => simp at hd
    | some d2 =>
      simp only [Option.some.injEq] at hd
      subst hd
      have hst := (blink_none_spec d2.childStates 0).2.1
      simp [StripControl.main, StripControl.main_loop, StripControl.init,
        StripControl.int_of_bool, hscan, hst]

/-- C10 witness: the flag coercion behaviour at a concrete discovery result,
with the resolution hypothesis discharged at the concrete strip: without the
blink flag, the session performs zero toggles and leaves the child states
unchanged. -/
theorem c10_blink_flag_coercion_witness :
    (StripControl.main "tv" "on" false
      [⟨"tv", DevKind.strip, [true, false], false⟩]).toggles = 0 ∧
    (StripControl.main "tv" "on" false
      [⟨"tv", DevKind.strip, [true, false], false⟩]).states
        = some [true, false] :=
  ⟨(c10_blink_flag_coercion "tv" "on" "off" false
      [⟨"tv", DevKind.strip, [true, false], false⟩]).2.2.2.1,
   (c10_blink_flag_coercion "tv" "on" "off" false
      [⟨"tv", DevKind.strip, [true, false], false⟩]).2.2.2.2
      ⟨"tv", DevKind.strip, [true, false], false⟩ (by decide)⟩
